import Mathlib

/-!
Verification of `lingvo/core/base_decoder.py`, the common decoder interface of
the lingvo framework.  The file under verification is a thin abstract layer:
two abstract base classes (`BaseDecoder`, `BaseBeamSearchDecoder`), a record
type `DecoderOutput`, parameter-definition boilerplate, and delegation to an
external beam-search engine and target-sequence sampler.

Shallow embedding conventions:
* Tensors, `NestedMap`s, thetas, callbacks and seeds are opaque values of a
  type parameter `V`; nothing in the source file inspects them.
* Python exceptions become `Except Err`; the only exception the source raises
  is `NotImplementedError`.
* Overridable methods (`ComputePredictions`, `ComputeLoss`) are function
  fields of the decoder record; the non-overridden (abstract) versions are the
  fields of `BaseDecoder.abstract`.
* Each method of `BaseBeamSearchDecoder` returns a `MethodRun`: its return
  value, the list of calls it makes into the external engines (so that "calls
  the engine exactly once with exactly these arguments" is statable), and the
  decoder state after the call (the source never assigns to `self` in these
  methods, so the translation returns the receiver unchanged).
* The beam-search helper and the sampler live outside the file under
  verification; they are modelled as opaque function parameters, except where
  a claim is about their documented behaviour, in which case a definition
  marked `Modelled from the spec:` supplies it.
-/

variable {V : Type}

/-- Python `NotImplementedError`, the only exception raised in the source
file (raised by the abstract method stubs). -/
inductive Err : Type where
  | notImplementedError : Err
deriving DecidableEq, Repr

/-- The `DecoderOutput` namedtuple: fields `metrics`, `predictions`,
`per_sequence`, in that order. -/
structure DecoderOutput (V : Type) : Type where
  metrics : V
  predictions : V
  per_sequence : V
deriving DecidableEq, Repr

/-- `BaseDecoder`: the two overridable methods are function fields.  A
concrete subclass supplies implementations; the non-overridden versions are
`BaseDecoder.abstract`. -/
structure BaseDecoder (V : Type) : Type where
  computePredictions : V → V → V → Except Err V
  computeLoss : V → V → V → Except Err (V × V)

/-- The abstract (non-overridden) `BaseDecoder`: `ComputePredictions` and
`ComputeLoss` both raise `NotImplementedError` (source lines 85-89). -/
def BaseDecoder.abstract : BaseDecoder V where
  computePredictions := fun _theta _encoder_outputs _targets =>
    .error .notImplementedError
  computeLoss := fun _theta _predictions _targets =>
    .error .notImplementedError

/-- `BaseDecoder.FProp` (source lines 67-83): computes predictions, then the
loss on those predictions, and packages the three results into a
`DecoderOutput`. -/
def BaseDecoder.FProp (d : BaseDecoder V) (theta encoder_outputs targets : V) :
    Except Err (DecoderOutput V) := do
  let predictions ← d.computePredictions theta encoder_outputs targets
  let (metrics, per_sequence) ← d.computeLoss theta predictions targets
  return { metrics := metrics, predictions := predictions,
           per_sequence := per_sequence }

/-- `BaseDecoder.UpdateTargetVocabSize` (source lines 53-65): a classmethod
that unconditionally raises `NotImplementedError`.  The model params `p` and
the optional wordpiece model are opaque. -/
def BaseDecoder.UpdateTargetVocabSize (_p : V) (_vocab_size : Int)
    (_wpm_model : Option V) : Except Err V :=
  .error .notImplementedError

/-- The fields of `beam_search_helper.BeamSearchHelper.Params()` that this
module reads or writes: the three fields the constructor overwrites (source
lines 128-130) plus `num_hyps_per_beam`, the configured hypotheses-per-beam
count that `num_hyps_per_beam_override` can override (source lines 154-156).
The helper itself is outside the file under verification. -/
structure BeamSearchHelperParams : Type where
  target_seq_len : Int
  target_sos_id : Int
  target_eos_id : Int
  num_hyps_per_beam : Int
deriving DecidableEq, Repr

/-- The fields of `target_sequence_sampler.TargetSequenceSampler.Params()`
that this module writes: the three fields the constructor overwrites (source
lines 132-134).  The sampler itself is outside the file under
verification. -/
structure TargetSequenceSamplerParams : Type where
  target_seq_len : Int
  target_sos_id : Int
  target_eos_id : Int
deriving DecidableEq, Repr

/-- `BaseBeamSearchDecoder.Params()` (source lines 95-108, together with the
inherited `packed_input` from `BaseDecoder.Params`, source lines 45-51):
`packed_input`, `target_sos_id`, `target_eos_id`, `target_seq_len`, and the
nested `beam_search` and `target_sequence_sampler` sub-configurations. -/
structure BaseBeamSearchDecoderParams : Type where
  packed_input : Bool
  target_sos_id : Int
  target_eos_id : Int
  target_seq_len : Int
  beam_search : BeamSearchHelperParams
  target_sequence_sampler : TargetSequenceSamplerParams
deriving DecidableEq, Repr

/-- The defaults of `BaseBeamSearchDecoder.Params()` (source lines 95-108):
`packed_input = False`, `target_sos_id = 1`, `target_eos_id = 2`,
`target_seq_len = 0`; the sub-configuration defaults come from the external
helpers and are taken as arguments. -/
def BaseBeamSearchDecoderParamsDefault (bs : BeamSearchHelperParams)
    (tss : TargetSequenceSamplerParams) : BaseBeamSearchDecoderParams where
  packed_input := false
  target_sos_id := 1
  target_eos_id := 2
  target_seq_len := 0
  beam_search := bs
  target_sequence_sampler := tss

/-- The params mutation performed by `BaseBeamSearchDecoder.__init__` (source
lines 124-135): it overwrites `target_seq_len`, `target_sos_id` and
`target_eos_id` of both the `beam_search` and the `target_sequence_sampler`
sub-configurations with the parent values, and touches nothing else.

Modelled from the spec: `base_layer.BaseLayer.__init__` is not under `src/`,
so whether `self.params` is the very params object supplied by the caller is
decided outside the visible code; following the spec's design note on "nested
parameter objects with in-place field mutation", `self.params` is identified
with the supplied params object, so this function maps the supplied params to
their state after construction. -/
def BaseBeamSearchDecoder.initParams (p : BaseBeamSearchDecoderParams) :
    BaseBeamSearchDecoderParams :=
  { p with
    beam_search :=
      { p.beam_search with
        target_seq_len := p.target_seq_len
        target_sos_id := p.target_sos_id
        target_eos_id := p.target_eos_id }
    target_sequence_sampler :=
      { p.target_sequence_sampler with
        target_seq_len := p.target_seq_len
        target_sos_id := p.target_sos_id
        target_eos_id := p.target_eos_id } }

/-- A constructed `BaseBeamSearchDecoder` instance: the inherited overridable
methods, the stored params (as left by `__init__`), the layer's weights
`theta`, the three beam-search callbacks (defined by concrete subclasses, so
opaque here), and the two children created by `CreateChild` (source lines 131
and 135): the beam-search engine's `BeamSearchDecode` entry point and the
sampler's `Sample` entry point, both external and hence opaque functions. -/
structure BaseBeamSearchDecoder (V : Type) : Type where
  base : BaseDecoder V
  params : BaseBeamSearchDecoderParams
  theta : V
  InitBeamSearchStateCallback : V
  PreBeamSearchStepCallback : V
  PostBeamSearchStepCallback : V
  beam_search : V → V → Int → V → V → V → V
  target_sequence_sampler : V → V → V → V → V → V → V

/-- `BaseBeamSearchDecoder.__init__` (source lines 124-135): mutates the
params as `initParams` does, then creates the `beam_search` child from the
updated `p.beam_search` and the `target_sequence_sampler` child from the
updated `p.target_sequence_sampler`.  The child factories `mkBeamSearch` and
`mkSampler` stand for the external helper constructors invoked by
`CreateChild`. -/
def BaseBeamSearchDecoder.construct (params : BaseBeamSearchDecoderParams)
    (base : BaseDecoder V) (theta initCb preCb postCb : V)
    (mkBeamSearch : BeamSearchHelperParams → V → V → Int → V → V → V → V)
    (mkSampler : TargetSequenceSamplerParams → V → V → V → V → V → V → V) :
    BaseBeamSearchDecoder V :=
  let p := BaseBeamSearchDecoder.initParams params
  { base := base
    params := p
    theta := theta
    InitBeamSearchStateCallback := initCb
    PreBeamSearchStepCallback := preCb
    PostBeamSearchStepCallback := postCb
    beam_search := mkBeamSearch p.beam_search
    target_sequence_sampler := mkSampler p.target_sequence_sampler }

/-- A call made by this module into one of the two external engines, with the
exact arguments passed. -/
inductive EngineCall (V : Type) : Type where
  | beamSearch (theta encoder_outputs : V) (num_hyps_per_beam_override : Int)
      (initCb preCb postCb : V) : EngineCall V
  | sample (theta encoder_outputs random_seed : V)
      (initCb preCb postCb : V) : EngineCall V

/-- The instrumented result of running one `BaseBeamSearchDecoder` method:
its return value, the external engine calls it makes (in order), and the
decoder state after the call. -/
structure MethodRun (V α : Type) : Type where
  ret : α
  calls : List (EngineCall V)
  post : BaseBeamSearchDecoder V

/-- `FProp` as inherited by `BaseBeamSearchDecoder` from `BaseDecoder`
(source lines 67-83): it calls no engine and assigns nothing to `self`. -/
def BaseBeamSearchDecoder.FProp (d : BaseBeamSearchDecoder V)
    (theta encoder_outputs targets : V) :
    MethodRun V (Except Err (DecoderOutput V)) where
  ret := d.base.FProp theta encoder_outputs targets
  calls := []
  post := d

/-- `BaseBeamSearchDecoder.AddExtraDecodingInfo` (source lines 137-147):
`return encoder_outputs`. -/
def BaseBeamSearchDecoder.AddExtraDecodingInfo (d : BaseBeamSearchDecoder V)
    (encoder_outputs _targets : V) : MethodRun V V where
  ret := encoder_outputs
  calls := []
  post := d

/-- `BaseBeamSearchDecoder.BeamSearchDecodeWithTheta` (source lines 164-172):
`return self.beam_search.BeamSearchDecode(theta, encoder_outputs,
num_hyps_per_beam_override, self._InitBeamSearchStateCallback,
self._PreBeamSearchStepCallback, self._PostBeamSearchStepCallback)`. -/
def BaseBeamSearchDecoder.BeamSearchDecodeWithTheta
    (d : BaseBeamSearchDecoder V) (theta encoder_outputs : V)
    (num_hyps_per_beam_override : Int) : MethodRun V V where
  ret := d.beam_search theta encoder_outputs num_hyps_per_beam_override
    d.InitBeamSearchStateCallback d.PreBeamSearchStepCallback
    d.PostBeamSearchStepCallback
  calls := [EngineCall.beamSearch theta encoder_outputs
    num_hyps_per_beam_override d.InitBeamSearchStateCallback
    d.PreBeamSearchStepCallback d.PostBeamSearchStepCallback]
  post := d

/-- `BaseBeamSearchDecoder.BeamSearchDecode` (source lines 149-162):
`return self.BeamSearchDecodeWithTheta(self.theta, encoder_outputs,
num_hyps_per_beam_override)`. -/
def BaseBeamSearchDecoder.BeamSearchDecode (d : BaseBeamSearchDecoder V)
    (encoder_outputs : V) (num_hyps_per_beam_override : Int) :
    MethodRun V V :=
  d.BeamSearchDecodeWithTheta d.theta encoder_outputs
    num_hyps_per_beam_override

/-- `BeamSearchDecode` called without the optional argument, whose Python
default is `num_hyps_per_beam_override=0` (source line 149). -/
def BaseBeamSearchDecoder.BeamSearchDecodeDefault
    (d : BaseBeamSearchDecoder V) (encoder_outputs : V) : MethodRun V V :=
  d.BeamSearchDecode encoder_outputs 0

/-- `BeamSearchDecodeWithTheta` called without the optional argument, whose
Python default is `num_hyps_per_beam_override=0` (source line 167). -/
def BaseBeamSearchDecoder.BeamSearchDecodeWithThetaDefault
    (d : BaseBeamSearchDecoder V) (theta encoder_outputs : V) :
    MethodRun V V :=
  d.BeamSearchDecodeWithTheta theta encoder_outputs 0

/-- `BaseBeamSearchDecoder.SampleTargetSequences` (source lines 174-194):
`return self.target_sequence_sampler.Sample(theta, encoder_outputs,
random_seed, self._InitBeamSearchStateCallback,
self._PreBeamSearchStepCallback, self._PostBeamSearchStepCallback)`. -/
def BaseBeamSearchDecoder.SampleTargetSequences (d : BaseBeamSearchDecoder V)
    (theta encoder_outputs random_seed : V) : MethodRun V V where
  ret := d.target_sequence_sampler theta encoder_outputs random_seed
    d.InitBeamSearchStateCallback d.PreBeamSearchStepCallback
    d.PostBeamSearchStepCallback
  calls := [EngineCall.sample theta encoder_outputs random_seed
    d.InitBeamSearchStateCallback d.PreBeamSearchStepCallback
    d.PostBeamSearchStepCallback]
  post := d

/-- `BaseBeamSearchDecoder.UpdateTargetVocabSize` (source lines 110-122):
a classmethod that unconditionally raises `NotImplementedError`. -/
def BaseBeamSearchDecoder.UpdateTargetVocabSize
    (_p : BaseBeamSearchDecoderParams) (_vocab_size : Int)
    (_wpm_model : Option V) : Except Err BaseBeamSearchDecoderParams :=
  .error .notImplementedError

/-- Modelled from the spec: the beam-search engine
(`beam_search_helper.BeamSearchHelper.BeamSearchDecode`) is not under `src/`.
The spec states that the override argument, "when positive, replaces the
configured hypotheses-per-beam count for this call only; when zero or
negative it is ignored", so this is the count the engine uses for one
call. -/
def BeamSearchHelper.numHypsPerBeam (p : BeamSearchHelperParams)
    (num_hyps_per_beam_override : Int) : Int :=
  if 0 < num_hyps_per_beam_override then num_hyps_per_beam_override
  else p.num_hyps_per_beam

/-- Modelled from the spec: a beam-search engine built from helper params `p`
and an abstract search procedure `f`; per the spec it runs the search at the
hypotheses-per-beam count selected for this call from the override and the
configured `p.num_hyps_per_beam`, leaving `p` untouched. -/
def BeamSearchHelper.engineOf (p : BeamSearchHelperParams)
    (f : Int → V → V → V → V → V → V) : V → V → Int → V → V → V → V :=
  fun theta encoder_outputs num_hyps_per_beam_override initCb preCb postCb =>
    f (BeamSearchHelper.numHypsPerBeam p num_hyps_per_beam_override)
      theta encoder_outputs initCb preCb postCb

/-- A concrete decoder over `V := Nat` whose subclass has overridden the two
abstract methods; used to instantiate the general theorems. -/
def sampleBaseDecoder : BaseDecoder Nat where
  computePredictions := fun theta encoder_outputs targets =>
    .ok (theta + encoder_outputs + targets)
  computeLoss := fun _theta predictions targets =>
    .ok (predictions * 2, targets)

/-- A concrete abstract-search procedure for instantiating the spec-modelled
beam-search engine over `V := Nat`. -/
def witSearchFn : Int → Nat → Nat → Nat → Nat → Nat → Nat :=
  fun num_hyps theta encoder_outputs initCb preCb postCb =>
    num_hyps.toNat * 1000 + theta * 100 + encoder_outputs * 10 +
      initCb + preCb + postCb

/-- A concrete sampler engine over `V := Nat`. -/
def witSampleFn :
    TargetSequenceSamplerParams → Nat → Nat → Nat → Nat → Nat → Nat → Nat :=
  fun _p theta encoder_outputs random_seed initCb preCb postCb =>
    theta * encoder_outputs + random_seed + initCb + preCb + postCb

/-- Concrete beam-search helper params. -/
def witBeamParams : BeamSearchHelperParams where
  target_seq_len := 7
  target_sos_id := 8
  target_eos_id := 9
  num_hyps_per_beam := 4

/-- Concrete sampler params. -/
def witSamplerParams : TargetSequenceSamplerParams where
  target_seq_len := 17
  target_sos_id := 18
  target_eos_id := 19

/-- Concrete decoder params. -/
def witParams : BaseBeamSearchDecoderParams where
  packed_input := true
  target_sos_id := 1
  target_eos_id := 2
  target_seq_len := 30
  beam_search := witBeamParams
  target_sequence_sampler := witSamplerParams

/-- A concrete constructed `BaseBeamSearchDecoder` over `V := Nat`, with
`theta = 3` and callbacks `11`, `12`, `13`, whose beam-search child is the
spec-modelled engine over `witSearchFn`. -/
def witDecoder : BaseBeamSearchDecoder Nat :=
  BaseBeamSearchDecoder.construct witParams sampleBaseDecoder 3 11 12 13
    (fun bp => BeamSearchHelper.engineOf bp witSearchFn) witSampleFn

/-- Claim C1: for every theta, encoder_outputs and targets,
`BaseDecoder.FProp` invokes `ComputePredictions(theta, encoder_outputs,
targets)` first, then `ComputeLoss(theta, predictions, targets)` on the
predictions so obtained, and returns a `DecoderOutput` whose `metrics` and
`per_sequence` fields are exactly the two outputs of `ComputeLoss` and whose
`predictions` field is exactly the output of `ComputePredictions`. -/
theorem claim_C1 {V : Type} (d : BaseDecoder V)
    (theta encoder_outputs targets predictions metrics per_sequence : V)
    (hp : d.computePredictions theta encoder_outputs targets =
      .ok predictions)
    (hl : d.computeLoss theta predictions targets =
      .ok (metrics, per_sequence)) :
    d.FProp theta encoder_outputs targets =
      .ok { metrics := metrics, predictions := predictions,
            per_sequence := per_sequence } := by
  unfold BaseDecoder.FProp
  rw [hp]
  show (fun a : V × V => DecoderOutput.mk a.1 predictions a.2) <$>
      d.computeLoss theta predictions targets = _
  rw [hl]
  rfl

/-- Witness for claim C1, at the concrete decoder `sampleBaseDecoder` with
`theta = 1`, `encoder_outputs = 2`, `targets = 3`. -/
theorem claim_C1_witness :
    sampleBaseDecoder.FProp 1 2 3 =
      .ok { metrics := 12, predictions := 6, per_sequence := 3 } :=
  claim_C1 sampleBaseDecoder 1 2 3 6 12 3 rfl rfl

/-- Claim C2: after constructing any `BaseBeamSearchDecoder` from params `p`,
the `beam_search` and `target_sequence_sampler` sub-configurations each hold
`target_seq_len`, `target_sos_id` and `target_eos_id` equal to the
corresponding fields of `p`, and no other operation in this module changes
these fields afterward (every method leaves the decoder state unchanged). -/
theorem claim_C2 {V : Type} (params : BaseBeamSearchDecoderParams)
    (base : BaseDecoder V) (theta initCb preCb postCb : V)
    (mkBeamSearch : BeamSearchHelperParams → V → V → Int → V → V → V → V)
    (mkSampler : TargetSequenceSamplerParams → V → V → V → V → V → V → V)
    (theta' encoder_outputs targets random_seed : V)
    (num_hyps_per_beam_override : Int) :
    let d := BaseBeamSearchDecoder.construct params base theta initCb preCb
      postCb mkBeamSearch mkSampler
    (d.params.beam_search.target_seq_len = params.target_seq_len ∧
      d.params.beam_search.target_sos_id = params.target_sos_id ∧
      d.params.beam_search.target_eos_id = params.target_eos_id ∧
      d.params.target_sequence_sampler.target_seq_len =
        params.target_seq_len ∧
      d.params.target_sequence_sampler.target_sos_id = params.target_sos_id ∧
      d.params.target_sequence_sampler.target_eos_id =
        params.target_eos_id) ∧
    ((d.FProp theta' encoder_outputs targets).post = d ∧
      (d.AddExtraDecodingInfo encoder_outputs targets).post = d ∧
      (d.BeamSearchDecode encoder_outputs num_hyps_per_beam_override).post =
        d ∧
      (d.BeamSearchDecodeWithTheta theta' encoder_outputs
        num_hyps_per_beam_override).post = d ∧
      (d.SampleTargetSequences theta' encoder_outputs random_seed).post =
        d) :=
  ⟨⟨rfl, rfl, rfl, rfl, rfl, rfl⟩, ⟨rfl, rfl, rfl, rfl, rfl⟩⟩

/-- Claim C3: `AddExtraDecodingInfo` on a `BaseBeamSearchDecoder` (when not
overridden) returns `encoder_outputs` itself, unchanged, regardless of the
value of `targets` (and calls no engine and changes no state). -/
theorem claim_C3 {V : Type} (d : BaseBeamSearchDecoder V)
    (encoder_outputs targets : V) :
    (d.AddExtraDecodingInfo encoder_outputs targets).ret = encoder_outputs ∧
    (d.AddExtraDecodingInfo encoder_outputs targets).calls = [] ∧
    (d.AddExtraDecodingInfo encoder_outputs targets).post = d :=
  ⟨rfl, rfl, rfl⟩

/-- Claim C4: invoking `ComputePredictions` or `ComputeLoss` on a
`BaseDecoder` instance whose subclass has not overridden them, or invoking
the class method `UpdateTargetVocabSize` on `BaseDecoder` or
`BaseBeamSearchDecoder`, always raises `NotImplementedError`, for every
argument value. -/
theorem claim_C4 {V : Type}
    (theta encoder_outputs targets predictions p : V)
    (pv : BaseBeamSearchDecoderParams) (vocab_size : Int)
    (wpm_model : Option V) :
    (BaseDecoder.abstract : BaseDecoder V).computePredictions theta
        encoder_outputs targets = .error .notImplementedError ∧
    (BaseDecoder.abstract : BaseDecoder V).computeLoss theta predictions
        targets = .error .notImplementedError ∧
    BaseDecoder.UpdateTargetVocabSize p vocab_size wpm_model =
      .error .notImplementedError ∧
    @BaseBeamSearchDecoder.UpdateTargetVocabSize V pv vocab_size wpm_model =
      .error .notImplementedError :=
  ⟨rfl, rfl, rfl, rfl⟩

/-- Claim C5: for every theta, encoder_outputs and override,
`BeamSearchDecodeWithTheta` calls the beam-search engine's
`BeamSearchDecode` exactly once, passing theta, encoder_outputs, the
override count and the three callbacks `_InitBeamSearchStateCallback`,
`_PreBeamSearchStepCallback`, `_PostBeamSearchStepCallback`, all unmodified
and in that role assignment, and returns the engine's result unchanged. -/
theorem claim_C5 {V : Type} (d : BaseBeamSearchDecoder V)
    (theta encoder_outputs : V) (num_hyps_per_beam_override : Int) :
    (d.BeamSearchDecodeWithTheta theta encoder_outputs
      num_hyps_per_beam_override).calls =
      [EngineCall.beamSearch theta encoder_outputs
        num_hyps_per_beam_override d.InitBeamSearchStateCallback
        d.PreBeamSearchStepCallback d.PostBeamSearchStepCallback] ∧
    (d.BeamSearchDecodeWithTheta theta encoder_outputs
      num_hyps_per_beam_override).ret =
      d.beam_search theta encoder_outputs num_hyps_per_beam_override
        d.InitBeamSearchStateCallback d.PreBeamSearchStepCallback
        d.PostBeamSearchStepCallback :=
  ⟨rfl, rfl⟩

/-- Claim C6: for every theta, encoder_outputs and random_seed,
`SampleTargetSequences` calls the sampler engine's `Sample` exactly once
with theta, encoder_outputs, random_seed and the same three callbacks that
`BeamSearchDecodeWithTheta` passes to the beam-search engine, and returns
the sampler's result unchanged. -/
theorem claim_C6 {V : Type} (d : BaseBeamSearchDecoder V)
    (theta encoder_outputs random_seed : V)
    (num_hyps_per_beam_override : Int) :
    (d.SampleTargetSequences theta encoder_outputs random_seed).calls =
      [EngineCall.sample theta encoder_outputs random_seed
        d.InitBeamSearchStateCallback d.PreBeamSearchStepCallback
        d.PostBeamSearchStepCallback] ∧
    (d.SampleTargetSequences theta encoder_outputs random_seed).ret =
      d.target_sequence_sampler theta encoder_outputs random_seed
        d.InitBeamSearchStateCallback d.PreBeamSearchStepCallback
        d.PostBeamSearchStepCallback ∧
    (d.BeamSearchDecodeWithTheta theta encoder_outputs
      num_hyps_per_beam_override).calls =
      [EngineCall.beamSearch theta encoder_outputs
        num_hyps_per_beam_override d.InitBeamSearchStateCallback
        d.PreBeamSearchStepCallback d.PostBeamSearchStepCallback] :=
  ⟨rfl, rfl, rfl⟩

/-- Claim C7: in `BeamSearchDecode`, a positive `num_hyps_per_beam_override`
replaces the configured hypotheses-per-beam count for that call only (the
stored configuration is not changed), and a zero or negative override is
ignored and the configured count is used.  Stated against the spec-modelled
beam-search engine `BeamSearchHelper.engineOf`, since the engine itself is
outside the file under verification. -/
theorem claim_C7 {V : Type} (params : BaseBeamSearchDecoderParams)
    (base : BaseDecoder V) (theta initCb preCb postCb : V)
    (f : Int → V → V → V → V → V → V)
    (mkSampler : TargetSequenceSamplerParams → V → V → V → V → V → V → V)
    (encoder_outputs : V) (num_hyps_per_beam_override : Int)
    (d : BaseBeamSearchDecoder V)
    (hd : d = BaseBeamSearchDecoder.construct params base theta initCb preCb
      postCb (fun bp => BeamSearchHelper.engineOf bp f) mkSampler) :
    (0 < num_hyps_per_beam_override →
      (d.BeamSearchDecode encoder_outputs num_hyps_per_beam_override).ret =
        f num_hyps_per_beam_override theta encoder_outputs initCb preCb
          postCb) ∧
    (num_hyps_per_beam_override ≤ 0 →
      (d.BeamSearchDecode encoder_outputs num_hyps_per_beam_override).ret =
        f params.beam_search.num_hyps_per_beam theta encoder_outputs initCb
          preCb postCb) ∧
    (d.BeamSearchDecode encoder_outputs num_hyps_per_beam_override).post =
      d ∧
    d.params.beam_search.num_hyps_per_beam =
      params.beam_search.num_hyps_per_beam := by
  subst hd
  refine ⟨fun h => ?_, fun h => ?_, rfl, rfl⟩
  · simp [BaseBeamSearchDecoder.BeamSearchDecode,
      BaseBeamSearchDecoder.BeamSearchDecodeWithTheta,
      BaseBeamSearchDecoder.construct, BeamSearchHelper.engineOf,
      BeamSearchHelper.numHypsPerBeam, h]
  · simp [BaseBeamSearchDecoder.BeamSearchDecode,
      BaseBeamSearchDecoder.BeamSearchDecodeWithTheta,
      BaseBeamSearchDecoder.construct, BaseBeamSearchDecoder.initParams,
      BeamSearchHelper.engineOf, BeamSearchHelper.numHypsPerBeam,
      not_lt.mpr h]

/-- Witness for claim C7, at the concrete decoder `witDecoder` (configured
count 4), both with the positive override 1 and with the ignored override
0. -/
theorem claim_C7_witness :
    ((0 : Int) < 1 ∧
      (witDecoder.BeamSearchDecode 5 1).ret = witSearchFn 1 3 5 11 12 13) ∧
    ((0 : Int) ≤ 0 ∧
      (witDecoder.BeamSearchDecode 5 0).ret = witSearchFn 4 3 5 11 12 13) :=
  ⟨⟨by decide,
      (claim_C7 witParams sampleBaseDecoder 3 11 12 13 witSearchFn
        witSampleFn 5 1 witDecoder rfl).1 (by decide)⟩,
    ⟨by decide,
      (claim_C7 witParams sampleBaseDecoder 3 11 12 13 witSearchFn
        witSampleFn 5 0 witDecoder rfl).2.1 (by decide)⟩⟩

/-- Claim C8: every operation of the decoder contract is deterministic in
its explicit call inputs: two calls of the same operation (`FProp`,
`AddExtraDecodingInfo`, `BeamSearchDecode`, `BeamSearchDecodeWithTheta`,
`SampleTargetSequences`) on decoders in the same state with equal arguments
return equal results. -/
theorem claim_C8 {V : Type} (d₁ d₂ : BaseBeamSearchDecoder V)
    (theta₁ theta₂ e₁ e₂ t₁ t₂ s₁ s₂ : V) (o₁ o₂ : Int)
    (hd : d₁ = d₂) (hth : theta₁ = theta₂) (he : e₁ = e₂) (htg : t₁ = t₂)
    (hs : s₁ = s₂) (ho : o₁ = o₂) :
    d₁.FProp theta₁ e₁ t₁ = d₂.FProp theta₂ e₂ t₂ ∧
    d₁.AddExtraDecodingInfo e₁ t₁ = d₂.AddExtraDecodingInfo e₂ t₂ ∧
    d₁.BeamSearchDecode e₁ o₁ = d₂.BeamSearchDecode e₂ o₂ ∧
    d₁.BeamSearchDecodeWithTheta theta₁ e₁ o₁ =
      d₂.BeamSearchDecodeWithTheta theta₂ e₂ o₂ ∧
    d₁.SampleTargetSequences theta₁ e₁ s₁ =
      d₂.SampleTargetSequences theta₂ e₂ s₂ := by
  subst hd hth he htg hs ho
  exact ⟨rfl, rfl, rfl, rfl, rfl⟩

/-- Witness for claim C8, at the concrete decoder `witDecoder` with
concrete arguments. -/
theorem claim_C8_witness :
    witDecoder.FProp 1 2 3 = witDecoder.FProp 1 2 3 ∧
    witDecoder.AddExtraDecodingInfo 2 3 =
      witDecoder.AddExtraDecodingInfo 2 3 ∧
    witDecoder.BeamSearchDecode 2 0 = witDecoder.BeamSearchDecode 2 0 ∧
    witDecoder.BeamSearchDecodeWithTheta 1 2 0 =
      witDecoder.BeamSearchDecodeWithTheta 1 2 0 ∧
    witDecoder.SampleTargetSequences 1 2 4 =
      witDecoder.SampleTargetSequences 1 2 4 :=
  claim_C8 witDecoder witDecoder 1 1 2 2 3 3 4 4 0 0 rfl rfl rfl rfl rfl rfl

/-- Claim C9: the `BaseBeamSearchDecoder` constructor's propagation step
unconditionally overwrites `target_seq_len`, `target_sos_id` and
`target_eos_id` inside both the `beam_search` and `target_sequence_sampler`
sub-configurations with the parent params' values (so any different values
previously set directly on those sub-configurations are discarded), and
modifies no params fields other than these six child fields: `packed_input`,
the parent's own three fields, and the other beam-search field
`num_hyps_per_beam` are all preserved. -/
theorem claim_C9 (p : BaseBeamSearchDecoderParams) :
    ((BaseBeamSearchDecoder.initParams p).beam_search.target_seq_len =
        p.target_seq_len ∧
      (BaseBeamSearchDecoder.initParams p).beam_search.target_sos_id =
        p.target_sos_id ∧
      (BaseBeamSearchDecoder.initParams p).beam_search.target_eos_id =
        p.target_eos_id ∧
      (BaseBeamSearchDecoder.initParams
          p).target_sequence_sampler.target_seq_len = p.target_seq_len ∧
      (BaseBeamSearchDecoder.initParams
          p).target_sequence_sampler.target_sos_id = p.target_sos_id ∧
      (BaseBeamSearchDecoder.initParams
          p).target_sequence_sampler.target_eos_id = p.target_eos_id) ∧
    ((BaseBeamSearchDecoder.initParams p).packed_input = p.packed_input ∧
      (BaseBeamSearchDecoder.initParams p).target_sos_id = p.target_sos_id ∧
      (BaseBeamSearchDecoder.initParams p).target_eos_id = p.target_eos_id ∧
      (BaseBeamSearchDecoder.initParams p).target_seq_len =
        p.target_seq_len ∧
      (BaseBeamSearchDecoder.initParams p).beam_search.num_hyps_per_beam =
        p.beam_search.num_hyps_per_beam) :=
  ⟨⟨rfl, rfl, rfl, rfl, rfl, rfl⟩, ⟨rfl, rfl, rfl, rfl, rfl⟩⟩

/-- Claim C10: for every encoder_outputs and override, `BeamSearchDecode`
returns exactly the value of `BeamSearchDecodeWithTheta` at the decoder's
own theta, and the `num_hyps_per_beam_override` argument defaults to 0 in
both entry points. -/
theorem claim_C10 {V : Type} (d : BaseBeamSearchDecoder V)
    (theta encoder_outputs : V) (num_hyps_per_beam_override : Int) :
    d.BeamSearchDecode encoder_outputs num_hyps_per_beam_override =
      d.BeamSearchDecodeWithTheta d.theta encoder_outputs
        num_hyps_per_beam_override ∧
    d.BeamSearchDecodeDefault encoder_outputs =
      d.BeamSearchDecode encoder_outputs 0 ∧
    d.BeamSearchDecodeWithThetaDefault theta encoder_outputs =
      d.BeamSearchDecodeWithTheta theta encoder_outputs 0 :=
  ⟨rfl, rfl, rfl⟩
